import Mathlib

/-!
Verification development for the persistent code-execution sandbox
(`JupyterCodeExecutor` in `code_tool.py`).

The repository logic (input normalisation, shell/code line partitioning,
the shell runner with its denylist and pip/conda special cases, the code
evaluator with last-expression capture, the session lifecycle) is embedded
as executable Lean definitions, translated statement by statement from the
Python source.  The CPython runtime facilities the source calls into
(`ast.parse`, `exec`, `eval`, `repr`, `__import__`, `subprocess.run`) are
not part of the repository; they are modelled by an abstract interface
`Env`, and a small concrete instance `miniEnv` renders CPython behaviour
on the specific programs used as test inputs.  Exceptions are modelled at
the granularity the source distinguishes them (`except Exception`);
process-control `BaseException`s such as `KeyboardInterrupt` are host
process control and outside the embedding.
-/

/-- A Python exception (of class `Exception`), as observed by the source:
`msg` is `str(e)` and `trace` is the rendered traceback text
(`traceback.format_exc()` / `traceback.print_exc`). -/
structure PyExn where
  msg : String
  trace : String
deriving DecidableEq, Repr

/-- A Python value, at the granularity the embedded code inspects values:
the only test the source performs on a value is `is not None`, plus `repr`.
`bad` stands for an object whose `repr` raises. -/
inductive PyVal where
  | pyNone
  | int (n : Int)
  | str (s : String)
  | module (name : String)
  | builtin (name : String)
  | bad
deriving DecidableEq, Repr

/-- The execution namespace `self._context`: a Python dict from identifier
to value.  Insertion order is preserved as in a dict. -/
abbrev Ctx := List (String × PyVal)

/-- Dict lookup (`alias in self._context` / `self._context[x]`). -/
def ctxLookup (c : Ctx) (x : String) : Option PyVal :=
  match c with
  | [] => none
  | (y, v) :: rest => if y = x then some v else ctxLookup rest x

/-- Dict assignment `self._context[x] = v`: overwrite in place if the key
exists, otherwise append (Python dicts keep insertion order). -/
def ctxInsert (c : Ctx) (x : String) (v : PyVal) : Ctx :=
  match c with
  | [] => [(x, v)]
  | (y, w) :: rest => if y = x then (y, v) :: rest else (y, w) :: ctxInsert rest x v

/-- Python whitespace, the character class matched by `\s` in `re` and
split on by `str.split()` / stripped by `str.strip()`. -/
def pyWs (c : Char) : Bool :=
  c = ' ' || c = '\t' || c = '\n' || c = '\r' || c = '\x0b' || c = '\x0c'

/-- Word characters, the character class `\w` of `re` (ASCII fragment). -/
def wordChar (c : Char) : Bool :=
  c.isAlphanum || c = '_'

/-- The backtick character. -/
def tickChar : Char := Char.ofNat 96

/-- If the list starts with three backticks, return the remainder. -/
def stripTicks3 : List Char → Option (List Char)
  | a :: b :: c :: rest =>
    if a = tickChar && b = tickChar && c = tickChar then some rest else none
  | _ => none

/-- Tail test of the fence regex: after the newline chosen for the lazy
group, the remainder must be whitespace, then three backticks, then
whitespace to the end of the string (this realises the deterministic
residue of the backtracking over the closing part of the pattern). -/
def fenceTail (cs : List Char) : Bool :=
  match stripTicks3 (cs.dropWhile pyWs) with
  | some rest => rest.all pyWs
  | none => false

/-- The lazy group of the fence regex: scan for the first newline whose
tail closes the fence; the characters before it form the captured inner
text. -/
def findInner : List Char → Option (List Char)
  | [] => none
  | c :: rest =>
    if c = '\n' && fenceTail rest then some []
    else (findInner rest).map (fun l => c :: l)

/-- Backtracking of the greedy whitespace run that precedes the mandatory
newline after the (optional) language tag: the rightmost newline of the
run is preferred, earlier ones are tried on failure. -/
def fenceRun : List Char → List Char → Option (List Char)
  | [], _ => none
  | c :: rest, after =>
    match fenceRun rest after with
    | some inner => some inner
    | none => if c = '\n' then findInner (rest ++ after) else none

/-- The anchored search of the source's fence pattern (the regex in
`_clean_code`, with `re.DOTALL`): optional leading whitespace, three
backticks, an optional word-character language tag, whitespace containing
at least one newline, the lazily captured inner text, then a closing
newline, whitespace, three backticks and trailing whitespace. -/
def fenceMatch (cs : List Char) : Option (List Char) :=
  match stripTicks3 (cs.dropWhile pyWs) with
  | none => none
  | some cs2 =>
    let cs3 := cs2.dropWhile wordChar
    fenceRun (cs3.takeWhile pyWs) (cs3.dropWhile pyWs)

/-- `JupyterCodeExecutor._clean_code`: remove markdown code-block
indicators if the whole input is one fenced block, else return the input
unchanged. -/
def clean_code (code : String) : String :=
  match fenceMatch code.data with
  | some inner => String.mk inner
  | none => code

/-- Whether a character list contains three consecutive backticks. -/
def containsTicksL (l : List Char) : Bool :=
  match l with
  | [] => false
  | _ :: rest => (stripTicks3 l).isSome || containsTicksL rest

/-- Whether a string contains a fence marker (three backticks). -/
def containsTicks (s : String) : Bool := containsTicksL s.data

/-- Substring test on character lists (used to state concrete
observations). -/
def isSubListOf (sub : List Char) : List Char → Bool
  | [] => sub.isPrefixOf []
  | c :: rest => sub.isPrefixOf (c :: rest) || isSubListOf sub rest

/-- Substring test (used to state concrete observations). -/
def containsStr (s sub : String) : Bool := isSubListOf sub.data s.data

/-- Boolean string-prefix test on the underlying character lists. -/
def hasPrefixStr (p s : String) : Bool := p.data.isPrefixOf s.data

/-- Python word-splitting, `str.split()` with no argument: split on runs
of whitespace, discarding empty words. -/
def pySplitAux : List Char → List Char → List String
  | [], acc => if acc = [] then [] else [String.mk acc.reverse]
  | c :: rest, acc =>
    if pyWs c then
      if acc = [] then pySplitAux rest []
      else String.mk acc.reverse :: pySplitAux rest []
    else pySplitAux rest (c :: acc)

/-- `command.split()` on a string. -/
def pySplit (s : String) : List String := pySplitAux s.data []

/-- `str.strip()`: remove leading and trailing Python whitespace. -/
def pyStripL (l : List Char) : List Char :=
  ((l.dropWhile pyWs).reverse.dropWhile pyWs).reverse

/-- `line.strip()` on a string. -/
def pyStrip (s : String) : String := String.mk (pyStripL s.data)

/-- `line.replace("!", "", 1)`: remove the first exclamation mark. -/
def removeFirstBangL : List Char → List Char
  | [] => []
  | c :: rest => if c = '!' then rest else c :: removeFirstBangL rest

/-- `cleaned_code.split("\n")`: split into lines at every newline,
keeping empty segments (so `""` gives one empty line). -/
def splitLinesL : List Char → List (List Char)
  | [] => [[]]
  | c :: rest =>
    if c = '\n' then [] :: splitLinesL rest
    else
      match splitLinesL rest with
      | l :: ls => (c :: l) :: ls
      | [] => [[c]]

/-- A completed or failed `subprocess.run` invocation, as the host OS
resolves it: a completed process with captured stdout, stderr and return
code, or an exception raised by `subprocess.run` itself (e.g. an
`OSError`). -/
inductive Subp where
  | completed (stdout stderr : String) (returncode : Int)
  | raised (e : PyExn)

/-- A host-level command actually handed to `subprocess.run`, recorded so
that theorems can observe which commands were and were not executed:
either an argument vector or a `shell=True` command string. -/
inductive ShellCall where
  | argv (args : List String)
  | sh (command : String)
deriving DecidableEq, Repr

/-- A statement of the parsed Python syntax tree, at the granularity the
source inspects it: the source only distinguishes whether a statement is
an `ast.Expr` (a bare expression), builds `ast.Assign` nodes, and
otherwise treats statements opaquely.  The concrete constructors carry a
small executable fragment so that a concrete engine can run them. -/
inductive PyExpr where
  | lit (v : PyVal)
  | var (x : String)
  | add (a b : PyExpr)
  | callPrint (e : PyExpr)
deriving DecidableEq, Repr

/-- Statements: a bare expression (`ast.Expr`, which includes calls such
as `print(...)`), an assignment (`ast.Assign` with one name target, the
shape the rewrite builds), and a `raise`, standing for the opaque
non-expression remainder of Python. -/
inductive PyStmt where
  | exprStmt (e : PyExpr)
  | assign (x : String) (e : PyExpr)
  | raiseStmt (msg : String)
deriving DecidableEq, Repr

/-- Outcome of one `exec` of a (compiled or raw) program against the
namespace: text written to the redirected stdout and stderr before
returning or failing, the namespace as mutated (possibly partially), and
the exception that escaped `exec`, if any. -/
structure ExecOutcome where
  out : String
  err : String
  ctx : Ctx
  exn : Option PyExn

/-- An execution attempt performed by the evaluator, recorded so that
theorems can observe whether code was executed: `exec` of a compiled
(rewritten) statement list, or `exec` of the raw source text. -/
inductive ExecCall where
  | ast (body : List PyStmt)
  | raw (code : String)
deriving DecidableEq, Repr

/-- The CPython runtime facilities the source calls into.  These are host
facilities, not repository code: `parse` is `ast.parse`, `execAst` is
`compile` + `exec` of a statement list, `execRaw` is `exec` of raw
source text, `evalName` is `eval` of an identifier, `reprVal` is `repr`,
`importMod` is `__import__` (`none` meaning `ImportError`), `uuidHex` is
the hex digest drawn from `uuid.uuid4()`, `sysExecutable` is
`sys.executable`, and `runArgv` / `runShellCmd` are `subprocess.run` on
an argument vector / a `shell=True` string. -/
structure Env where
  parse : String → Except PyExn (List PyStmt)
  execAst : List PyStmt → Ctx → ExecOutcome
  execRaw : String → Ctx → ExecOutcome
  evalName : String → Ctx → Except PyExn PyVal
  reprVal : PyVal → Except PyExn String
  importMod : String → Option PyVal
  uuidHex : String
  sysExecutable : String
  runArgv : List String → Subp
  runShellCmd : String → Subp

/-- The fixed denylist of `_run_shell`. -/
def dangerous_commands : List String :=
  ["rm", "shutdown", "reboot", "del", "format", "mv", "dd", "kill"]

/-- The fixed refusal message of `_run_shell`. -/
def blockedMsg : String :=
  "ERROR: Potentially dangerous command blocked for security reasons"

/-- `tokens[0] in ["pip", "pip3"] and len(tokens) >= 2 and
tokens[1] == "install"`. -/
def isPipInstall : List String → Bool
  | t0 :: t1 :: _ => (t0 == "pip" || t0 == "pip3") && t1 == "install"
  | _ => false

/-- `tokens[0] == "conda" and len(tokens) >= 2 and
tokens[1] == "install"`. -/
def isCondaInstall : List String → Bool
  | t0 :: t1 :: _ => t0 == "conda" && t1 == "install"
  | _ => false

/-- Result of `_run_shell`: the returned string (or the exception that
escaped it, since only `CalledProcessError` is caught inside), plus the
record of host-level commands actually executed. -/
structure ShellResult where
  result : Except PyExn String
  calls : List ShellCall

/-- `JupyterCodeExecutor._run_shell`, translated clause by clause:
tokenize; empty commands return `""`; `pip`/`pip3 install` is rewritten
onto `sys.executable -m pip install` and run with `check=True` (a
non-zero return code raises `CalledProcessError`, caught and rendered);
`conda install` runs the original line through the shell the same way;
then the denylist gate; then the generic shell path. -/
def run_shell (env : Env) (command : String) : ShellResult :=
  let tokens := pySplit command
  if tokens = [] then ⟨.ok "", []⟩
  else if isPipInstall tokens then
    let new_command := [env.sysExecutable, "-m", "pip", "install"] ++ tokens.drop 2
    match env.runArgv new_command with
    | .completed out err rc =>
      if rc = 0 then ⟨.ok (out ++ err), [.argv new_command]⟩
      else ⟨.ok ("PIP INSTALL ERROR:\n" ++ out ++ "\n" ++ err ++ "\nReturn code: " ++ toString rc),
            [.argv new_command]⟩
    | .raised e => ⟨.error e, [.argv new_command]⟩
  else if isCondaInstall tokens then
    match env.runShellCmd command with
    | .completed out err rc =>
      if rc = 0 then ⟨.ok (out ++ err), [.sh command]⟩
      else ⟨.ok ("CONDA INSTALL ERROR:\n" ++ out ++ "\n" ++ err ++ "\nReturn code: " ++ toString rc),
            [.sh command]⟩
    | .raised e => ⟨.error e, [.sh command]⟩
  else if tokens.any (fun t => dangerous_commands.contains t) then
    ⟨.ok blockedMsg, []⟩
  else
    match env.runShellCmd command with
    | .completed out err rc =>
      if rc = 0 then ⟨.ok (out ++ err), [.sh command]⟩
      else ⟨.ok ("SHELL COMMAND ERROR:\n" ++ out ++ "\n" ++ err ++ "\nReturn code: " ++ toString rc),
            [.sh command]⟩
    | .raised e => ⟨.error e, [.sh command]⟩

/-- `parsed.body and isinstance(parsed.body[-1], ast.Expr)`: if the body
is non-empty and its last statement is a bare expression, return the
preceding statements and that expression. -/
def destructLast : List PyStmt → Option (List PyStmt × PyExpr)
  | [] => none
  | [PyStmt.exprStmt e] => some ([], e)
  | [_] => none
  | s :: rest => (destructLast rest).map (fun p => (s :: p.1, p.2))

/-- The auto-import loop at the top of `_run_python`: for each alias not
yet bound in the context, try `__import__` and bind the module; an
`ImportError` is silently skipped. -/
def auto_import (env : Env) (ctx : Ctx) : List (String × String) → Ctx
  | [] => ctx
  | (al, modname) :: rest =>
    let ctx2 :=
      if ctxLookup ctx al = none then
        match env.importMod modname with
        | some v => ctxInsert ctx al v
        | none => ctx
      else ctx
    auto_import env ctx2 rest

/-- State of the evaluator after the redirected-capture block of
`_run_python`: captured stdout and stderr text, the value of
`last_expr_value` (initialised to `None` and only ever overwritten by a
successful `eval` of the temporary binding), the namespace, and the
record of execution attempts. -/
structure CoreResult where
  out : String
  err : String
  last : PyVal
  ctx : Ctx
  log : List ExecCall

/-- The `with redirect_stdout/redirect_stderr` block of `_run_python`:
parse the code; on a parse failure the enclosing `except` prints the
trace to the captured stderr (no execution is attempted).  If the last
top-level statement is a bare expression, it is replaced by an assignment
to a fresh temporary name, the rewritten tree is compiled and executed,
and the temporary is then `eval`ed; otherwise the raw text is executed
unchanged.  Any exception is caught and its trace appended to the
captured stderr, leaving `last_expr_value` as `None`. -/
def run_python_core (env : Env) (ctx : Ctx) (code : String) : CoreResult :=
  match env.parse code with
  | .error e => ⟨"", e.trace, PyVal.pyNone, ctx, []⟩
  | .ok body =>
    match destructLast body with
    | some p =>
      let temp := "__temp_" ++ env.uuidHex
      let newBody := p.1 ++ [PyStmt.assign temp p.2]
      let o := env.execAst newBody ctx
      match o.exn with
      | some e => ⟨o.out, o.err ++ e.trace, PyVal.pyNone, o.ctx, [.ast newBody]⟩
      | none =>
        match env.evalName temp o.ctx with
        | .ok v => ⟨o.out, o.err, v, o.ctx, [.ast newBody]⟩
        | .error e => ⟨o.out, o.err ++ e.trace, PyVal.pyNone, o.ctx, [.ast newBody]⟩
    | none =>
      let o := env.execRaw code ctx
      match o.exn with
      | some e => ⟨o.out, o.err ++ e.trace, PyVal.pyNone, o.ctx, [.raw code]⟩
      | none => ⟨o.out, o.err, PyVal.pyNone, o.ctx, [.raw code]⟩

/-- Result of `_run_python`: the returned `(stdout, stderr)` pair, plus
the mutated namespace and the record of execution attempts. -/
structure PyResult where
  stdout : String
  stderr : String
  ctx : Ctx
  log : List ExecCall

/-- `JupyterCodeExecutor._run_python`: auto-imports, the captured
execution, then the last-expression echo — appended only when
`last_expr_value is not None`, with the fixed placeholder if `repr`
itself raises. -/
def run_python (env : Env) (ctx : Ctx) (ai : List (String × String)) (code : String) : PyResult :=
  let c1 := auto_import env ctx ai
  let r := run_python_core env c1 code
  let stdout :=
    if r.last = PyVal.pyNone then r.out
    else
      match env.reprVal r.last with
      | .ok s => r.out ++ "\n[Last expression result]: " ++ s
      | .error _ => r.out ++ "\n[Last expression result] (unable to represent)"
  ⟨stdout, r.err, r.ctx, r.log⟩

/-- The session state of one `JupyterCodeExecutor`: the namespace
`_context`, the history `_history` and the table `_auto_imports` (the
leading underscores of the attribute names are dropped). -/
structure Session where
  context : Ctx
  history : List String
  auto_imports : List (String × String)
deriving DecidableEq

/-- The alias table installed by `__init__`. -/
def auto_imports_table : List (String × String) :=
  [("pd", "pandas"), ("np", "numpy"), ("plt", "matplotlib.pyplot"),
   ("sns", "seaborn"), ("sklearn", "sklearn"), ("torch", "torch"),
   ("tf", "tensorflow")]

/-- `JupyterCodeExecutor._initialize_context`: the default bindings —
`__builtins__`, the custom `print`, `help`, and the common modules. -/
def init_context : Ctx :=
  [("__builtins__", PyVal.builtin "builtins"),
   ("print", PyVal.builtin "custom_print"),
   ("help", PyVal.builtin "help"),
   ("os", PyVal.module "os"),
   ("sys", PyVal.module "sys"),
   ("math", PyVal.module "math"),
   ("json", PyVal.module "json"),
   ("io", PyVal.module "io"),
   ("pathlib", PyVal.module "pathlib"),
   ("subprocess", PyVal.module "subprocess")]

/-- `JupyterCodeExecutor.__init__`: a fresh session. -/
def Session.init : Session := ⟨init_context, [], auto_imports_table⟩

/-- `JupyterCodeExecutor.reset_context`: replace the namespace with a
fresh `_initialize_context()` and return the confirmation string. -/
def reset_context (s : Session) : String × Session :=
  ("Context reset successfully", { s with context := init_context })

/-- The line partitioning loop of `_run`: a line whose stripped form
starts with `!` contributes a shell command (first `!` removed, then
stripped; empty commands dropped), every other line is a Python line. -/
def splitShellPython : List (List Char) → List String × List (List Char)
  | [] => ([], [])
  | line :: rest =>
    let (sh, py) := splitShellPython rest
    let stripped := pyStripL line
    match stripped with
    | c :: _ =>
      if c = '!' then
        let cmd := pyStripL (removeFirstBangL line)
        if cmd = [] then (sh, py) else (String.mk cmd :: sh, py)
      else (sh, line :: py)
    | [] => (sh, line :: py)

/-- `"\n".join(python_lines)`. -/
def joinLines : List (List Char) → List Char
  | [] => []
  | [l] => l
  | l :: rest => l ++ '\n' :: joinLines rest

/-- `"\n".join` on strings. -/
def joinNL : List String → String
  | [] => ""
  | [s] => s
  | s :: rest => s ++ "\n" ++ joinNL rest

/-- `"\n\n".join` on strings. -/
def joinNL2 : List String → String
  | [] => ""
  | [s] => s
  | s :: rest => s ++ "\n\n" ++ joinNL2 rest

/-- The shell loop of `_run`: for each command append
`"Executing: <command>"` and the runner's output; an exception escaping
`_run_shell` aborts the loop (and is caught at the `_run` boundary). -/
def runShellSeq (env : Env) : List String → Except PyExn (List String) × List ShellCall
  | [] => (.ok [], [])
  | cmd :: rest =>
    let r := run_shell env cmd
    match r.result with
    | .error e => (.error e, r.calls)
    | .ok out =>
      let (res, calls) := runShellSeq env rest
      match res with
      | .error e => (.error e, r.calls ++ calls)
      | .ok outs => (.ok (("Executing: " ++ cmd) :: out :: outs), r.calls ++ calls)

/-- Result of the `try:` body of `_run` (before the boundary handler):
the observation string or the exception that escaped, the session as
mutated so far, and the record of host commands and execution attempts. -/
structure BodyResult where
  result : Except PyExn String
  session : Session
  shellLog : List ShellCall
  execLog : List ExecCall

/-- The `try:` body of `JupyterCodeExecutor._run`: clean the input,
append it to the history, partition lines, run the shell commands
sequentially, run the concatenated Python lines once, and assemble the
observation sections. -/
def runBody (env : Env) (sess : Session) (code : String) : BodyResult :=
  let cleaned := clean_code code
  let sess1 : Session := { sess with history := sess.history ++ [cleaned] }
  let (shellCmds, pyLines) := splitShellPython (splitLinesL cleaned.data)
  match runShellSeq env shellCmds with
  | (.error e, calls) => ⟨.error e, sess1, calls, []⟩
  | (.ok shellOuts, calls) =>
    let (pyOut, sess2, execLog) :=
      if pyLines = [] then ([], sess1, [])
      else
        let pyCode := String.mk (joinLines pyLines)
        let r := run_python env sess1.context sess1.auto_imports pyCode
        ((if r.stdout ≠ "" then ["PYTHON STDOUT:\n" ++ r.stdout] else []) ++
         (if r.stderr ≠ "" then ["PYTHON STDERR:\n" ++ r.stderr] else []),
         { sess1 with context := r.ctx }, r.log)
    let allOutputs :=
      (if shellOuts ≠ [] then ["SHELL OUTPUT:\n" ++ joinNL shellOuts] else []) ++
      (if pyOut ≠ [] then [joinNL pyOut] else [])
    let observation :=
      if allOutputs ≠ [] then joinNL2 allOutputs
      else "Code executed successfully with no output"
    ⟨.ok observation, sess2, calls, execLog⟩

/-- Result of one call of the entry point `_run`. -/
structure RunResult where
  output : String
  session : Session
  shellLog : List ShellCall
  execLog : List ExecCall

/-- `JupyterCodeExecutor._run`: the `try:` body, with every escaping
exception converted at the boundary into the
`"EXECUTION ERROR: <str(e)>\n<traceback>"` observation. -/
def run (env : Env) (sess : Session) (code : String) : RunResult :=
  let b := runBody env sess code
  match b.result with
  | .ok out => ⟨out, b.session, b.shellLog, b.execLog⟩
  | .error e =>
    ⟨"EXECUTION ERROR: " ++ e.msg ++ "\n" ++ e.trace, b.session, b.shellLog, b.execLog⟩

/-- A `NameError`, as raised by evaluating an unbound identifier. -/
def nameErr (x : String) : PyExn :=
  ⟨"name \x27" ++ x ++ "\x27 is not defined",
   "Traceback (most recent call last):\nNameError: name \x27" ++ x ++ "\x27 is not defined\n"⟩

/-- A `TypeError` for an unsupported binary operation. -/
def typeErr : PyExn :=
  ⟨"unsupported operand type(s) for +",
   "Traceback (most recent call last):\nTypeError: unsupported operand type(s) for +\n"⟩

/-- A `SyntaxError`, as raised by `ast.parse` on malformed source. -/
def syntaxErr : PyExn :=
  ⟨"invalid syntax",
   "Traceback (most recent call last):\nSyntaxError: invalid syntax\n"⟩

/-- The exception raised by a failing `repr`. -/
def reprErr : PyExn :=
  ⟨"unrepresentable object",
   "Traceback (most recent call last):\nRuntimeError: unrepresentable object\n"⟩

/-- `str()` of a value, as `print` renders it. -/
def pyStrOf : PyVal → String
  | .pyNone => "None"
  | .int n => toString n
  | .str s => s
  | .module n => "<module \x27" ++ n ++ "\x27>"
  | .builtin n => "<built-in function " ++ n ++ ">"
  | .bad => "<unrepresentable>"

/-- `repr()` of a value. -/
def pyReprOf : PyVal → String
  | .pyNone => "None"
  | .int n => toString n
  | .str s => "\x27" ++ s ++ "\x27"
  | .module n => "<module \x27" ++ n ++ "\x27>"
  | .builtin n => "<built-in function " ++ n ++ ">"
  | .bad => "<unrepresentable>"

/-- Expression evaluation of the concrete engine, returning the text the
expression wrote to the redirected stdout along with its value or the
exception it raised: literals, variable lookup (`NameError` when
unbound), `+` on two ints or two strings (`TypeError` otherwise), and a
`print(...)` call, which writes its argument and evaluates to `None`. -/
def evalExpr (ctx : Ctx) : PyExpr → String × Except PyExn PyVal
  | .lit v => ("", .ok v)
  | .var x =>
    match ctxLookup ctx x with
    | some v => ("", .ok v)
    | none => ("", .error (nameErr x))
  | .add a b =>
    match evalExpr ctx a with
    | (o1, .error e) => (o1, .error e)
    | (o1, .ok va) =>
      match evalExpr ctx b with
      | (o2, .error e) => (o1 ++ o2, .error e)
      | (o2, .ok vb) =>
        match va, vb with
        | .int m, .int n => (o1 ++ o2, .ok (.int (m + n)))
        | .str s, .str t => (o1 ++ o2, .ok (.str (s ++ t)))
        | _, _ => (o1 ++ o2, .error typeErr)
  | .callPrint e =>
    match evalExpr ctx e with
    | (o, .error ex) => (o, .error ex)
    | (o, .ok v) => (o ++ pyStrOf v ++ "\n", .ok .pyNone)

/-- One statement step of the concrete engine: output written, the new
namespace, and an escaping exception if any (output written before the
exception is kept). -/
def stepStmt (ctx : Ctx) : PyStmt → String × Ctx × Option PyExn
  | .exprStmt e =>
    match evalExpr ctx e with
    | (o, .ok _) => (o, ctx, none)
    | (o, .error ex) => (o, ctx, some ex)
  | .assign x e =>
    match evalExpr ctx e with
    | (o, .ok v) => (o, ctxInsert ctx x v, none)
    | (o, .error ex) => (o, ctx, some ex)
  | .raiseStmt msg =>
    ("", ctx, some ⟨msg, "Traceback (most recent call last):\nValueError: " ++ msg ++ "\n"⟩)

/-- Sequential execution of a statement list by the concrete engine:
output accumulates until an exception stops execution, the namespace
keeps the mutations already performed. -/
def miniExec : List PyStmt → Ctx → ExecOutcome
  | [], ctx => ⟨"", "", ctx, none⟩
  | s :: rest, ctx =>
    match stepStmt ctx s with
    | (out, ctx2, some e) => ⟨out, "", ctx2, some e⟩
    | (out, ctx2, none) =>
      let o := miniExec rest ctx2
      ⟨out ++ o.out, o.err, o.ctx, o.exn⟩

/-- `ast.parse` of the concrete engine: the rendering of CPython's parser
on the concrete programs the theorems below exercise; everything else is
a `SyntaxError` (as for `"def ("`). -/
def miniParse : String → Except PyExn (List PyStmt)
  | "\"a\" + \"b\"" => .ok [.exprStmt (.add (.lit (.str "a")) (.lit (.str "b")))]
  | "y = 1" => .ok [.assign "y" (.lit (.int 1))]
  | "x = 5" => .ok [.assign "x" (.lit (.int 5))]
  | "x + 1" => .ok [.exprStmt (.add (.var "x") (.lit (.int 1)))]
  | "None" => .ok [.exprStmt (.lit .pyNone)]
  | "print(1)" => .ok [.exprStmt (.callPrint (.lit (.int 1)))]
  | "bad_obj" => .ok [.exprStmt (.lit .bad)]
  | "print(\"before\")\nraise ValueError(\"boom\")" =>
    .ok [.exprStmt (.callPrint (.lit (.str "before"))), .raiseStmt "boom"]
  | _ => .error syntaxErr

/-- The concrete engine: `miniParse`/`miniExec` for parsing and
execution, dict lookup for `eval` of a name, `repr` failing exactly on
the `bad` value, no optional libraries installed (every auto-import gets
an `ImportError`), a fixed uuid hex draw, and host commands that complete
successfully. -/
def miniEnv : Env where
  parse := miniParse
  execAst := fun body ctx => miniExec body ctx
  execRaw := fun code ctx =>
    match miniParse code with
    | .ok body => miniExec body ctx
    | .error e => ⟨"", "", ctx, some e⟩
  evalName := fun x ctx =>
    match ctxLookup ctx x with
    | some v => .ok v
    | none => .error (nameErr x)
  reprVal := fun v =>
    match v with
    | .bad => .error reprErr
    | v => .ok (pyReprOf v)
  importMod := fun _ => none
  uuidHex := "0123abcd"
  sysExecutable := "/usr/bin/python3"
  runArgv := fun _ => .completed "argv-ok\n" "" 0
  runShellCmd := fun _ => .completed "shell-ok\n" "" 0

/-- The character data of a string append is the append of the data. -/
theorem data_append (a b : String) : (a ++ b).data = a.data ++ b.data := rfl

/-- A list is a Boolean prefix of itself followed by anything. -/
@[simp] theorem isPrefixOf_append_self (l t : List Char) : l.isPrefixOf (l ++ t) = true := by
  induction l with
  | nil => simp [List.isPrefixOf]
  | cons a as ih => simp [List.isPrefixOf, ih]

/-- An append whose right part is a non-empty string is non-empty. -/
theorem append_ne_empty_right (a b : String) (h : b ≠ "") : a ++ b ≠ "" := by
  intro hc
  apply h
  have hd : (a ++ b).data = ([] : List Char) := by rw [hc]
  rw [data_append] at hd
  have hb : b.data = [] := (List.append_eq_nil.mp hd).2
  cases b with
  | mk l => simpa using congrArg String.mk hb

/-- If the whitespace-stripped front of a list carries three backticks,
the list contains the fence marker. -/
theorem containsTicksL_of_strip (cs : List Char) :
    ∀ r, stripTicks3 (cs.dropWhile pyWs) = some r → containsTicksL cs = true := by
  induction cs with
  | nil => intro r h; simp [stripTicks3] at h
  | cons c cs ih =>
    intro r h
    rw [List.dropWhile_cons] at h
    by_cases hc : pyWs c = true
    · rw [if_pos hc] at h
      have := ih r h
      unfold containsTicksL
      simp [this]
    · rw [if_neg hc] at h
      unfold containsTicksL
      simp [h]

/-- C8: the input normalizer returns the input unchanged when no fence
marker is present; it unwraps the inner text when the entire input is one
fenced block (with or without a language tag, leading/trailing whitespace
tolerated); a partial fence and a fenced block inside a larger string are
left untouched; and a language-tagged fenced block around `print(1)` is
executed as `print(1)`, producing stdout `1`. -/
theorem C8_input_normalizer :
    (∀ s : String, containsTicks s = false → clean_code s = s)
    ∧ clean_code "```python\nprint(1)\n```" = "print(1)"
    ∧ clean_code "```\nx = 1\n```" = "x = 1"
    ∧ clean_code "  ```python\nprint(1)\n```  \n" = "print(1)"
    ∧ clean_code "```python\nprint(1)" = "```python\nprint(1)"
    ∧ clean_code "print(1)\n```python\nprint(2)\n```" = "print(1)\n```python\nprint(2)\n```"
    ∧ (run miniEnv Session.init "```python\nprint(1)\n```").output = "PYTHON STDOUT:\n1\n" := by
  refine ⟨?_, by decide, by decide, by decide, by decide, by decide, by decide⟩
  intro s h
  unfold clean_code
  cases hm : fenceMatch s.data with
  | none => rfl
  | some inner =>
    exfalso
    unfold fenceMatch at hm
    cases hs : stripTicks3 (s.data.dropWhile pyWs) with
    | none => rw [hs] at hm; simp at hm
    | some cs2 =>
      have ht := containsTicksL_of_strip s.data cs2 hs
      rw [containsTicks] at h
      rw [h] at ht
      exact Bool.false_ne_true ht

/-- C8 witness: the general no-fence clause applied to a concrete
fence-free input. -/
theorem C8_witness : clean_code "x = 5\nprint(x)" = "x = 5\nprint(x)" :=
  C8_input_normalizer.1 "x = 5\nprint(x)" (by decide)

/-- C1: the entry point either returns the observation its body
produced, or — when any exception escapes the body — the observation
text prefixed with the fixed error marker; in both cases it returns a
string and never lets the exception propagate. -/
theorem C1_run_never_raises (env : Env) (sess : Session) (code : String) :
    (∃ out, (runBody env sess code).result = Except.ok out ∧ (run env sess code).output = out)
    ∨ ((∃ e, (runBody env sess code).result = Except.error e)
       ∧ hasPrefixStr "EXECUTION ERROR: " (run env sess code).output = true) := by
  cases hb : (runBody env sess code).result with
  | ok out =>
    left
    refine ⟨out, rfl, ?_⟩
    simp only [run, hb]
  | error e =>
    right
    refine ⟨⟨e, rfl⟩, ?_⟩
    simp only [run, hb]
    simp [hasPrefixStr, data_append, List.append_assoc]

/-- C3 (amended): for every shell line that is not a `pip`/`pip3 install`
and not a `conda install` invocation, if any whitespace token exactly
matches a denylisted name the runner returns the fixed refusal message
and hands nothing to the host. -/
theorem C3_dangerous_gate (env : Env) (command : String)
    (h0 : ¬ pySplit command = [])
    (h1 : isPipInstall (pySplit command) = false)
    (h2 : isCondaInstall (pySplit command) = false)
    (h3 : (pySplit command).any (fun t => dangerous_commands.contains t) = true) :
    run_shell env command = ⟨Except.ok blockedMsg, []⟩ := by
  simp only [run_shell]
  rw [if_neg h0]
  simp only [h1, h2, h3, Bool.false_eq_true, if_false, if_true]

/-- C3 witness: the gate applied to a concrete deletion command. -/
theorem C3_witness : run_shell miniEnv "rm -rf /tmp/x" = ⟨Except.ok blockedMsg, []⟩ :=
  C3_dangerous_gate miniEnv "rm -rf /tmp/x" (by decide) (by decide) (by decide) (by decide)

/-- Whether a shell result is the given success string (used to observe
concrete results without deciding equality of exceptions). -/
def resultIsOkStr (r : ShellResult) (s : String) : Bool :=
  match r.result with
  | .ok t => t == s
  | .error _ => false

/-- C3 counterexample: `pip install rm` contains the denylisted token
`rm`, yet the runner executes a host-level command (the rewritten pip
invocation) and returns its output, not the refusal message — the
denylist gate runs only after the package-install special cases. -/
theorem C3_counterexample :
    ("rm" ∈ pySplit "pip install rm"
      ∧ "rm" ∈ dangerous_commands)
    ∧ (run_shell miniEnv "pip install rm").calls =
        [ShellCall.argv ["/usr/bin/python3", "-m", "pip", "install", "rm"]]
    ∧ resultIsOkStr (run_shell miniEnv "pip install rm") blockedMsg = false
    ∧ resultIsOkStr (run_shell miniEnv "pip install rm") "argv-ok\n" = true := by
  decide

/-- C4 (amended): `reset_context` replaces the namespace with bindings
identical to construction-time initialisation, always succeeds with the
fixed confirmation string, and is idempotent on the namespace — but it
does not discard the history, which is preserved unchanged. -/
theorem C4_reset_context (s : Session) :
    (reset_context s).1 = "Context reset successfully"
    ∧ (reset_context s).2.context = Session.init.context
    ∧ (reset_context (reset_context s).2).2.context = (reset_context s).2.context
    ∧ (reset_context s).2.history = s.history
    ∧ (reset_context s).2.auto_imports = s.auto_imports :=
  ⟨rfl, rfl, rfl, rfl, rfl⟩

/-- C4 counterexample: after a reset of a session whose history holds one
submitted fragment, the history is still that fragment, not empty — the
claimed discarding of the history does not happen. -/
theorem C4_counterexample :
    (reset_context { Session.init with history := ["x = 5"] }).2.history = ["x = 5"]
    ∧ (["x = 5"] : List String) ≠ [] :=
  ⟨rfl, by decide⟩

/-- The statement list after the last-expression rewrite: the preceding
statements followed by the assignment of the last bare expression to the
uuid-named temporary. -/
def tempAssign (env : Env) (p : List PyStmt × PyExpr) : List PyStmt :=
  p.1 ++ [PyStmt.assign ("__temp_" ++ env.uuidHex) p.2]

/-- Whether `ast.parse` fails on the given source text. -/
def parseFails (env : Env) (code : String) : Bool :=
  match env.parse code with
  | .error _ => true
  | .ok _ => false

/-- Whether the parsed body's final top-level statement is a bare
expression. -/
def lastIsExpr (env : Env) (code : String) : Bool :=
  match env.parse code with
  | .ok body => (destructLast body).isSome
  | .error _ => false

/-- C2 (amended): when the code text fails to parse, the evaluator
attempts no execution at all — there is no raw-execution fallback — and
the parse failure's trace is written directly to the captured stderr,
with empty stdout and the namespace left as the auto-imports left it. -/
theorem C2_parse_failure_no_fallback (env : Env) (ctx : Ctx) (ai : List (String × String))
    (code : String) (e : PyExn) (h : env.parse code = Except.error e) :
    run_python env ctx ai code = ⟨"", e.trace, auto_import env ctx ai, []⟩ := by
  simp [run_python, run_python_core, h]

/-- C2 witness: the amended clause applied to the unparsable input
`def (`. -/
theorem C2_witness :
    run_python miniEnv init_context auto_imports_table "def (" =
      ⟨"", syntaxErr.trace, auto_import miniEnv init_context auto_imports_table, []⟩ :=
  C2_parse_failure_no_fallback miniEnv init_context auto_imports_table "def (" syntaxErr rfl

/-- C2 counterexample: on the unparsable input `def (` the evaluator
records no execution attempt whatsoever (so no best-effort raw execution
of the unparsed text happens), while the syntax failure's trace goes
straight to the captured stderr. -/
theorem C2_counterexample :
    parseFails miniEnv "def (" = true
    ∧ (run_python miniEnv init_context auto_imports_table "def (").log = []
    ∧ (run_python miniEnv init_context auto_imports_table "def (").stderr = syntaxErr.trace := by
  decide

/-- C5 (amended): when the final top-level statement is a bare expression
whose execution and lookup succeed and whose value is not `None`, the
evaluator appends the value's representation to the captured stdout under
the distinct label, or the fixed placeholder if `repr` itself raises;
`"a" + "b"` alone yields the representation of `"ab"`, and an assignment
such as `y = 1` yields no last-expression line. -/
theorem C5_last_expression_echo (env : Env) (ctx : Ctx) (ai : List (String × String))
    (code : String) (body : List PyStmt) (p : List PyStmt × PyExpr) (v : PyVal)
    (hp : env.parse code = Except.ok body)
    (hd : destructLast body = some p)
    (hexn : (env.execAst (tempAssign env p) (auto_import env ctx ai)).exn = none)
    (hev : env.evalName ("__temp_" ++ env.uuidHex)
            (env.execAst (tempAssign env p) (auto_import env ctx ai)).ctx = Except.ok v)
    (hv : v ≠ PyVal.pyNone) :
    (∀ r, env.reprVal v = Except.ok r →
      (run_python env ctx ai code).stdout =
        (env.execAst (tempAssign env p) (auto_import env ctx ai)).out
          ++ "\n[Last expression result]: " ++ r)
    ∧ (∀ e2, env.reprVal v = Except.error e2 →
      (run_python env ctx ai code).stdout =
        (env.execAst (tempAssign env p) (auto_import env ctx ai)).out
          ++ "\n[Last expression result] (unable to represent)")
    ∧ (run miniEnv Session.init "\"a\" + \"b\"").output
        = "PYTHON STDOUT:\n\n[Last expression result]: \x27ab\x27"
    ∧ (run miniEnv Session.init "y = 1").output = "Code executed successfully with no output"
    ∧ containsStr (run miniEnv Session.init "y = 1").output "[Last expression result]" = false := by
  simp only [tempAssign] at hexn hev ⊢
  refine ⟨?_, ?_, by decide, by decide, by decide⟩
  · intro r hr
    simp [run_python, run_python_core, hp, hd, hexn, hev, hr, hv]
  · intro e2 hr
    simp [run_python, run_python_core, hp, hd, hexn, hev, hr, hv]

/-- C5 witness: the non-`None` echo clause applied to the concrete input
`"a" + "b"` under the concrete engine. -/
theorem C5_witness :
    (run_python miniEnv init_context auto_imports_table "\"a\" + \"b\"").stdout =
      (miniEnv.execAst
          (tempAssign miniEnv ([], PyExpr.add (PyExpr.lit (PyVal.str "a")) (PyExpr.lit (PyVal.str "b"))))
          (auto_import miniEnv init_context auto_imports_table)).out
        ++ "\n[Last expression result]: " ++ "\x27ab\x27" :=
  (C5_last_expression_echo miniEnv init_context auto_imports_table "\"a\" + \"b\""
    [PyStmt.exprStmt (PyExpr.add (PyExpr.lit (PyVal.str "a")) (PyExpr.lit (PyVal.str "b")))]
    ([], PyExpr.add (PyExpr.lit (PyVal.str "a")) (PyExpr.lit (PyVal.str "b")))
    (PyVal.str "ab") rfl rfl rfl rfl (by decide)).1 "\x27ab\x27" rfl

/-- C5 counterexample: the input `None` is a code block whose final (and
only) top-level statement is a bare expression, yet the call appends no
last-expression line — the echo is skipped whenever the value is `None`,
so the claim's unconditional "for every code block whose final top-level
statement is a bare expression" is false. -/
theorem C5_counterexample :
    lastIsExpr miniEnv "None" = true
    ∧ (run miniEnv Session.init "None").output = "Code executed successfully with no output" := by
  decide

/-- C6: a code fragment that writes output and then raises mid-execution
still returns normally — whichever execution path ran, the stdout
produced before the failure is preserved unchanged and the full trace is
appended to the captured stderr (non-empty whenever the trace is); in
particular printing `before` and then raising yields an observation
containing `before`, a stderr section with the traceback, and no
boundary error marker. -/
theorem C6_error_containment :
    (∀ (env : Env) (ctx : Ctx) (ai : List (String × String)) (code : String)
        (body : List PyStmt) (e : PyExn),
      env.parse code = Except.ok body →
      destructLast body = none →
      (env.execRaw code (auto_import env ctx ai)).exn = some e →
      (run_python env ctx ai code).stdout = (env.execRaw code (auto_import env ctx ai)).out
      ∧ (run_python env ctx ai code).stderr =
          (env.execRaw code (auto_import env ctx ai)).err ++ e.trace
      ∧ (e.trace ≠ "" → (run_python env ctx ai code).stderr ≠ ""))
    ∧ (∀ (env : Env) (ctx : Ctx) (ai : List (String × String)) (code : String)
        (body : List PyStmt) (p : List PyStmt × PyExpr) (e : PyExn),
      env.parse code = Except.ok body →
      destructLast body = some p →
      (env.execAst (tempAssign env p) (auto_import env ctx ai)).exn = some e →
      (run_python env ctx ai code).stdout =
          (env.execAst (tempAssign env p) (auto_import env ctx ai)).out
      ∧ (run_python env ctx ai code).stderr =
          (env.execAst (tempAssign env p) (auto_import env ctx ai)).err ++ e.trace)
    ∧ containsStr (run miniEnv Session.init
        "print(\"before\")\nraise ValueError(\"boom\")").output "before" = true
    ∧ containsStr (run miniEnv Session.init
        "print(\"before\")\nraise ValueError(\"boom\")").output "PYTHON STDERR:" = true
    ∧ containsStr (run miniEnv Session.init
        "print(\"before\")\nraise ValueError(\"boom\")").output "Traceback" = true
    ∧ hasPrefixStr "EXECUTION ERROR: " (run miniEnv Session.init
        "print(\"before\")\nraise ValueError(\"boom\")").output = false := by
  refine ⟨?_, ?_, by decide, by decide, by decide, by decide⟩
  · intro env ctx ai code body e hp hd he
    have hs : (run_python env ctx ai code).stderr =
        (env.execRaw code (auto_import env ctx ai)).err ++ e.trace := by
      simp [run_python, run_python_core, hp, hd, he]
    refine ⟨?_, hs, ?_⟩
    · simp [run_python, run_python_core, hp, hd, he]
    · intro ht
      rw [hs]
      exact append_ne_empty_right _ _ ht
  · intro env ctx ai code body p e hp hd he
    simp only [tempAssign] at he ⊢
    constructor
    · simp [run_python, run_python_core, hp, hd, he]
    · simp [run_python, run_python_core, hp, hd, he]

/-- C6 witness: the raw-execution clause applied to the concrete
print-then-raise fragment under the concrete engine. -/
theorem C6_witness :
    (run_python miniEnv init_context auto_imports_table
        "print(\"before\")\nraise ValueError(\"boom\")").stdout =
      (miniEnv.execRaw "print(\"before\")\nraise ValueError(\"boom\")"
        (auto_import miniEnv init_context auto_imports_table)).out :=
  (C6_error_containment.1 miniEnv init_context auto_imports_table
    "print(\"before\")\nraise ValueError(\"boom\")"
    [PyStmt.exprStmt (PyExpr.callPrint (PyExpr.lit (PyVal.str "before"))),
     PyStmt.raiseStmt "boom"]
    ⟨"boom", "Traceback (most recent call last):\nValueError: boom\n"⟩ rfl rfl rfl).1

/-- C7: namespace bindings persist across successive calls on one
session: after executing `x = 5`, the session's namespace binds `x` to
`5`, and a separate call executing `x + 1` on the resulting session
yields the last-expression representation `6`. -/
theorem C7_state_persistence :
    ctxLookup (run miniEnv Session.init "x = 5").session.context "x" = some (PyVal.int 5)
    ∧ (run miniEnv (run miniEnv Session.init "x = 5").session "x + 1").output =
        "PYTHON STDOUT:\n\n[Last expression result]: 6" := by
  decide

/-- C9: a shell line whose first token is `pip` or `pip3` followed by
`install` is rewritten onto the current interpreter's own package manager
(`sys.executable -m pip install ...`) regardless of which executable name
appeared, that rewritten vector is the only host command handed over, a
zero exit returns the combined captured output, and a non-zero exit
returns the distinctly prefixed error observation carrying stdout,
stderr and the exit code. -/
theorem C9_pip_install_rewrite (env : Env) (command t0 : String) (rest : List String)
    (hs : pySplit command = t0 :: "install" :: rest)
    (ht : t0 = "pip" ∨ t0 = "pip3") :
    (run_shell env command).calls =
      [ShellCall.argv ([env.sysExecutable, "-m", "pip", "install"] ++ rest)]
    ∧ (∀ out err rc,
        env.runArgv ([env.sysExecutable, "-m", "pip", "install"] ++ rest) =
          Subp.completed out err rc →
        (rc = 0 → (run_shell env command).result = Except.ok (out ++ err))
        ∧ (rc ≠ 0 → (run_shell env command).result =
            Except.ok ("PIP INSTALL ERROR:\n" ++ out ++ "\n" ++ err ++ "\nReturn code: "
              ++ toString rc))) := by
  have hpip : isPipInstall (pySplit command) = true := by
    rw [hs]; rcases ht with h | h <;> simp [isPipInstall, h]
  constructor
  · simp only [run_shell, hs] at hpip ⊢
    rw [if_neg (by simp), if_pos (by simp [hpip])]
    cases hargv : env.runArgv ([env.sysExecutable, "-m", "pip", "install"] ++ rest) with
    | completed out err rc =>
      simp only [List.drop_succ_cons, List.drop_zero, hargv]
      by_cases hrc : rc = 0 <;> simp [hrc]
    | raised e =>
      simp only [List.drop_succ_cons, List.drop_zero, hargv]
  · intro out err rc hargv
    constructor
    · intro hrc
      simp only [run_shell, hs] at hpip ⊢
      rw [if_neg (by simp), if_pos (by simp [hpip])]
      simp only [List.drop_succ_cons, List.drop_zero, hargv]
      simp [hrc]
    · intro hrc
      simp only [run_shell, hs] at hpip ⊢
      rw [if_neg (by simp), if_pos (by simp [hpip])]
      simp only [List.drop_succ_cons, List.drop_zero, hargv]
      simp [hrc]

/-- C9 witness: the rewrite clause applied to the concrete line
`pip3 install seaborn` under the concrete engine. -/
theorem C9_witness :
    (run_shell miniEnv "pip3 install seaborn").calls =
      [ShellCall.argv ["/usr/bin/python3", "-m", "pip", "install", "seaborn"]] :=
  (C9_pip_install_rewrite miniEnv "pip3 install seaborn" "pip3" ["seaborn"]
    (by decide) (Or.inr rfl)).1

/-- C10: when the final top-level statement is a bare expression whose
execution succeeds and whose evaluated value is `None`, the captured
stdout is returned without any last-expression line — the echo fires
only for non-`None` values; concretely, executing `None` alone produces
the no-output fallback observation. -/
theorem C10_none_value_no_echo (env : Env) (ctx : Ctx) (ai : List (String × String))
    (code : String) (body : List PyStmt) (p : List PyStmt × PyExpr)
    (hp : env.parse code = Except.ok body)
    (hd : destructLast body = some p)
    (hexn : (env.execAst (tempAssign env p) (auto_import env ctx ai)).exn = none)
    (hev : env.evalName ("__temp_" ++ env.uuidHex)
            (env.execAst (tempAssign env p) (auto_import env ctx ai)).ctx =
          Except.ok PyVal.pyNone) :
    (run_python env ctx ai code).stdout =
        (env.execAst (tempAssign env p) (auto_import env ctx ai)).out
    ∧ containsStr (run miniEnv Session.init "None").output "[Last expression result]" = false := by
  simp only [tempAssign] at hexn hev ⊢
  constructor
  · simp [run_python, run_python_core, hp, hd, hexn, hev]
  · decide

/-- C10 witness: the `None` clause applied to the concrete input `None`
under the concrete engine. -/
theorem C10_witness :
    (run_python miniEnv init_context auto_imports_table "None").stdout =
      (miniEnv.execAst (tempAssign miniEnv ([], PyExpr.lit PyVal.pyNone))
        (auto_import miniEnv init_context auto_imports_table)).out :=
  (C10_none_value_no_echo miniEnv init_context auto_imports_table "None"
    [PyStmt.exprStmt (PyExpr.lit PyVal.pyNone)] ([], PyExpr.lit PyVal.pyNone)
    rfl rfl rfl rfl).1
